import Mathlib

/-!
Verification of the Hirschberg-Sinclair leader-election sample
(viktor-platform/sample-distributed-algorithms).

The development shallowly embeds the per-node protocol code of
app/hirschberg/hirschberg_algorithm.py (class Hirschberg), the generic
process runtime of pyro.py (class Process), the topology construction of
run_hirschberg_sinclair_algorithm, and the input field declared in
app/hirschberg/parametrization.py.  Pure methods become Lean functions;
one-way Pyro calls become explicit messages pushed on per-directed-edge
FIFO queues; the asynchronous network is a step function driven by an
explicit schedule of start and delivery events.
-/

namespace DistAlg

/-- The six lifecycle states recorded in the trace (enum State in
hirschberg_algorithm.py). -/
inductive NState where
  | IDLE
  | SEND_OUT
  | SEND_IN
  | RECEIVE_OUT
  | RECEIVE_IN
  | SELECTED
deriving DecidableEq, Repr

/-- One row of the per-node trace: the add_data method appends the node
name, its election id, its current round, a clock value and a state tag.
A clock of none stands for the wall-clock reading time_ns() that the
Python takes when no explicit clock is passed. -/
structure TraceEntry where
  name : Nat
  id : Nat
  round : Nat
  clock : Option Nat
  state : NState
deriving DecidableEq, Repr

/-- Per-node state of class Hirschberg.  The type parameter is the type of
neighbour references (Pyro4 proxies compare equal exactly when they name
the same node, so any type with decidable equality models them; the
network model instantiates it with the node index).  The field me models
self.proxy, the reference a node hands out as sender of its messages.
The Python sets self.counter for the first time inside run(); every
modelled execution calls run before any receive, so the field is carried
from initialisation here. -/
structure Hirschberg (ρ : Type) where
  me : ρ
  name : Nat
  id : Nat
  l : Nat
  number_of_nodes : Nat
  counter : Nat
  elected : Bool
  neighbours : List ρ
  data : List TraceEntry
deriving DecidableEq, Repr

/-- A message in flight: a one-way receive_out or receive_in call,
carrying the arguments of the Python methods including the sender
reference. -/
inductive Msg (ρ : Type) where
  | out (nid : Nat) (h : Int) (sender : ρ)
  | inn (nid : Nat) (sender : ρ)
deriving DecidableEq, Repr

variable {ρ : Type} [DecidableEq ρ]

/-- Hirschberg.__init__ together with Process.__init__: id becomes int(id_),
round l is 0, the election flag is off, no neighbours, empty trace. -/
def Hirschberg.init (me : ρ) (name id number_of_nodes : Nat) : Hirschberg ρ :=
  { me := me, name := name, id := id, l := 0,
    number_of_nodes := number_of_nodes, counter := 0, elected := false,
    neighbours := [], data := [] }

/-- Process.add_neighbour: appends a proxy to the neighbour list. -/
def Hirschberg.add_neighbour (s : Hirschberg ρ) (p : ρ) : Hirschberg ρ :=
  { s with neighbours := s.neighbours ++ [p] }

/-- Hirschberg.add_data: appends one trace row holding the current name,
id and round. -/
def add_data (s : Hirschberg ρ) (state : NState) (clock : Option Nat) :
    Hirschberg ρ :=
  { s with data := s.data ++ [⟨s.name, s.id, s.l, clock, state⟩] }

/-- Hirschberg.other_neighbour: the Python for-loop breaks at the first
stored neighbour different from the sender and otherwise leaves the loop
variable at the last element; an empty neighbour list raises, modelled as
none. -/
def other_neighbour : List ρ → ρ → Option ρ
  | [], _ => none
  | [n], _ => some n
  | n :: m :: rest, sender =>
      if n ≠ sender then some n else other_neighbour (m :: rest) sender

/-- Hirschberg.send_out: one SEND_OUT trace row, then one receive_out
message per target carrying self.proxy as sender. -/
def send_out (s : Hirschberg ρ) (nid : Nat) (h : Int) (targets : List ρ) :
    Hirschberg ρ × List (ρ × Msg ρ) :=
  let s := add_data s NState.SEND_OUT none
  (s, targets.map fun t => (t, Msg.out nid h s.me))

/-- Hirschberg.send_in: one SEND_IN trace row, then one receive_in message
per target. -/
def send_in (s : Hirschberg ρ) (nid : Nat) (targets : List ρ) :
    Hirschberg ρ × List (ρ × Msg ρ) :=
  let s := add_data s NState.SEND_IN none
  (s, targets.map fun t => (t, Msg.inn nid s.me))

/-- Hirschberg.receive_out: records RECEIVE_OUT; if the candidate id is
larger than the own id, the hop count is decremented by the current round
and the message is either forwarded (positive remainder) or answered with
a receive_in to the sender; otherwise it is dropped.  The result is none
exactly when other_neighbour would raise (no neighbours). -/
def receive_out (s : Hirschberg ρ) (nid : Nat) (h : Int) (sender : ρ) :
    Option (Hirschberg ρ × List (ρ × Msg ρ)) :=
  let s := add_data s NState.RECEIVE_OUT none
  if s.id < nid then
    let h := h - s.l
    if 0 < h then
      match other_neighbour s.neighbours sender with
      | some t => some (send_out s nid h [t])
      | none => none
    else
      some (send_in s nid [sender])
  else
    some (s, [])

/-- Hirschberg.receive_in: records RECEIVE_IN; on the own id the counter
is incremented and, at counter 2, the node either becomes elected (when
2 ^ l + 1 reaches the node count) or starts the next round; on a foreign
id the message is relayed to the other neighbour. -/
def receive_in (s : Hirschberg ρ) (nid : Nat) (sender : ρ) :
    Option (Hirschberg ρ × List (ρ × Msg ρ)) :=
  let s := add_data s NState.RECEIVE_IN none
  if nid = s.id then
    let s := { s with counter := s.counter + 1 }
    if s.counter = 2 then
      if s.number_of_nodes ≤ 2 ^ s.l + 1 then
        let s := { s with elected := true }
        let s := { s with l := s.l + 1 }
        some (add_data s NState.SELECTED none, [])
      else
        let s := { s with l := s.l + 1, counter := 0 }
        some (send_out s s.id ((2 : Int) ^ (s.l - 1)) s.neighbours)
    else
      some (s, [])
  else
    match other_neighbour s.neighbours sender with
    | some t => some (send_in s nid [t])
    | none => none

/-- Hirschberg.run: sets the round to 1, records IDLE at clock 0, resets
the counter and sends the first receive_out with hop count l to every
neighbour. -/
def Hirschberg.run (s : Hirschberg ρ) : Hirschberg ρ × List (ρ × Msg ρ) :=
  let s := { s with l := 1 }
  let s := add_data s NState.IDLE (some 0)
  let s := { s with counter := 0 }
  send_out s s.id (s.l : Int) s.neighbours

/-!
Network model.  Pyro delivers one-way calls between a fixed pair of
daemons in send order, so every directed edge of the ring carries a FIFO
queue.  A run of the system is a sequence of events: starting a node
(Process.start invoking run in a fresh thread) or delivering the head
message of one directed edge to its target, which executes the matching
handler atomically and enqueues the messages it emits.  Which event
happens next is the scheduler freedom of the real system.
-/

/-- FIFO queues of the directed edges, as an association list from the
pair (sender, receiver) to the pending messages, oldest first. -/
def Queues : Type := List ((Nat × Nat) × List (Msg Nat))

/-- Pending messages on one directed edge. -/
def getQueue (qs : Queues) (a b : Nat) : List (Msg Nat) :=
  match qs.find? (fun q => q.1 = (a, b)) with
  | some q => q.2
  | none => []

/-- Replace the pending messages of one directed edge. -/
def setQueue (qs : Queues) (a b : Nat) (ms : List (Msg Nat)) : Queues :=
  match qs with
  | [] => [((a, b), ms)]
  | q :: rest =>
      if q.1 = (a, b) then ((a, b), ms) :: rest else q :: setQueue rest a b ms

/-- Enqueue one message at the back of a directed edge. -/
def pushMsg (qs : Queues) (a b : Nat) (m : Msg Nat) : Queues :=
  setQueue qs a b (getQueue qs a b ++ [m])

/-- Global state of the simulated network: the nodes by index and the
in-flight messages. -/
structure Network where
  nodes : List (Hirschberg Nat)
  queues : Queues

/-- One scheduler event: start node i, or deliver the oldest pending
message on the edge from a to b. -/
inductive Event where
  | start (i : Nat)
  | deliver (a b : Nat)
deriving DecidableEq, Repr

/-- Dispatch of an incoming one-way call to the matching handler. -/
def handle (s : Hirschberg Nat) (m : Msg Nat) :
    Option (Hirschberg Nat × List (Nat × Msg Nat)) :=
  match m with
  | .out nid h sender => receive_out s nid h sender
  | .inn nid sender => receive_in s nid sender

/-- Push every emitted message on the queue of the edge from the emitting
node to its target. -/
def pushSends (qs : Queues) (src : Nat) (sends : List (Nat × Msg Nat)) :
    Queues :=
  sends.foldl (fun qs tm => pushMsg qs src tm.1 tm.2) qs

/-- Execute one scheduler event; none when the event is not enabled
(no such node, empty queue) or the handler raises. -/
def stepNet (net : Network) : Event → Option Network
  | .start i =>
      match net.nodes.get? i with
      | none => none
      | some s =>
          let r := s.run
          some { nodes := net.nodes.set i r.1,
                 queues := pushSends net.queues i r.2 }
  | .deliver a b =>
      match getQueue net.queues a b with
      | [] => none
      | m :: rest =>
          match net.nodes.get? b with
          | none => none
          | some s =>
              match handle s m with
              | none => none
              | some r =>
                  some { nodes := net.nodes.set b r.1,
                         queues := pushSends (setQueue net.queues a b rest) b r.2 }

/-- Execute a whole schedule of events in order. -/
def execSchedule (net : Network) : List Event → Option Network
  | [] => some net
  | e :: es => (stepNet net e).bind (fun n => execSchedule n es)

/-- Neighbour wiring of run_hirschberg_sinclair_algorithm: node idx is
given proxies[idx - 1] (a Python index, wrapping only at 0) and then
proxies[idx + 1] with an explicit wrap to 0 at the end of the list. -/
def ring_neighbours (n idx : Nat) : List Nat :=
  let right := if idx = 0 then n - 1 else idx - 1
  let left := if n ≤ idx + 1 then 0 else idx + 1
  [right, left]

/-- The network as the orchestrator builds it from a list of election
ids: node idx has name idx, the given id, the node count, and the ring
wiring; no messages are pending. -/
def ringNetwork (ids : List Nat) : Network :=
  let n := ids.length
  { nodes := (List.range n).map fun i =>
      { Hirschberg.init i i (ids.getD i 0) n with neighbours := ring_neighbours n i },
    queues := [] }

/-!
A concrete adversarial run used for claim C1.  Ring of eight nodes whose
ids make node 0 the global maximum and node 4 a far-away local maximum,
with the intermediate nodes 2 and 6 winning exactly one round.  Because
receive_out decrements the hop budget by the round of the receiving node
rather than by one, the round-3 probes of node 4 turn around after only
three hops once nodes 2 and 6 sit in round 2, so node 4 never probes the
stretch of the ring containing node 0 and still reaches counter 2 in
round 3, where 2 ^ 3 + 1 = 9 is at least the node count 8.
-/

/-- Election ids of the adversarial ring, in ring order. -/
def splitIds : List Nat := [100, 11, 50, 10, 90, 12, 60, 13]

set_option maxHeartbeats 2000000 in
/-- A schedule of the adversarial run.  Every deliver event pops the
oldest message of its directed edge, so the schedule respects FIFO
delivery per link; it is one of the interleavings the threaded Pyro
runtime can produce. -/
def splitSchedule : List Event :=
  [ .start 0, .start 1, .start 2, .start 3, .start 4, .start 5, .start 6, .start 7,
    -- node 2 wins round 1 and moves to round 2
    .deliver 2 1, .deliver 2 3, .deliver 3 2, .deliver 1 2,
    .deliver 1 2, .deliver 3 2,
    .deliver 2 1, .deliver 2 3,
    .deliver 1 0, .deliver 1 0, .deliver 3 4, .deliver 3 4,
    -- node 6 wins round 1 and moves to round 2
    .deliver 6 5, .deliver 6 7, .deliver 5 6, .deliver 7 6,
    .deliver 5 6, .deliver 7 6,
    .deliver 6 5, .deliver 6 7,
    .deliver 5 4, .deliver 5 4, .deliver 7 0, .deliver 7 0,
    -- node 4 wins round 1
    .deliver 4 3, .deliver 4 5, .deliver 3 4, .deliver 5 4,
    -- node 4 wins round 2: its probes turn around at the round-2 nodes 2 and 6
    .deliver 4 3, .deliver 3 2, .deliver 2 3, .deliver 3 4,
    .deliver 4 5, .deliver 5 6, .deliver 6 5, .deliver 5 4,
    -- node 4 wins round 3 without its probes ever reaching node 0
    .deliver 4 3, .deliver 3 2, .deliver 2 1, .deliver 1 2, .deliver 2 3, .deliver 3 4,
    .deliver 4 5, .deliver 5 6, .deliver 6 7, .deliver 7 6, .deliver 6 5, .deliver 5 4,
    -- node 0, the global maximum, wins rounds 1 to 3 as well
    .deliver 0 7, .deliver 0 1, .deliver 7 0, .deliver 1 0,
    .deliver 0 7, .deliver 7 6, .deliver 6 7, .deliver 7 0,
    .deliver 0 1, .deliver 1 2, .deliver 2 1, .deliver 1 0,
    .deliver 0 7, .deliver 7 6, .deliver 6 5, .deliver 5 6, .deliver 6 7, .deliver 7 0,
    .deliver 0 1, .deliver 1 2, .deliver 2 3, .deliver 3 2, .deliver 2 1, .deliver 1 0 ]

/-!
Topology construction and id generation of
run_hirschberg_sinclair_algorithm (lines 188 to 207).
-/

/-- Models np.random.randint(lo, hi) applied to one raw draw r: a value
in the half-open interval, or none for the ValueError raised when the
interval is empty. -/
def np_randint (lo hi r : Nat) : Option Nat :=
  if lo < hi then some (lo + r % (hi - lo)) else none

/-- Line 189: ids are number_of_nodes independent draws of
np.random.randint(1, number_of_nodes ** 4); sample i is the i-th raw
draw of the random source.  No distinctness check, rejection or
resampling appears anywhere. -/
def generate_ids (n : Nat) (sample : Nat → Nat) : Option (List Nat) :=
  (List.range n).mapM fun i => np_randint 1 (n ^ 4) (sample i)

/-- Lines 188 to 207: generate the ids, then wire node idx to
proxies[idx - 1] and proxies[idx + 1].  The only failure is the one
np.random.randint can raise; there is no validation of the node count
and no InvalidTopology error anywhere in the repository. -/
def run_setup (n : Nat) (sample : Nat → Nat) :
    Option (List Nat × List (List Nat)) :=
  (generate_ids n sample).map fun ids =>
    (ids, (List.range n).map (ring_neighbours n))

/-!
Generic runtime lifecycle of pyro.py (class Process).
-/

/-- Lifecycle-relevant state of a Process: the name, the neighbour
registry, the kill flag (unset before the first start call) and the
number of threads that have been created and started by start calls. -/
structure PyroProcess where
  name : Nat
  neighbours : List Nat
  killed : Option Bool
  threadsStarted : Nat
deriving DecidableEq, Repr

/-- Process.__init__. -/
def PyroProcess.init (name : Nat) : PyroProcess :=
  { name := name, neighbours := [], killed := none, threadsStarted := 0 }

/-- Process.start: sets _killed to False and starts a fresh thread on the
run method.  The body has no guard of any kind: it never raises, and a
repeated call simply starts one more thread. -/
def PyroProcess.start (p : PyroProcess) : PyroProcess :=
  { p with killed := some false, threadsStarted := p.threadsStarted + 1 }

/-- Process.stop: sets the kill flag. -/
def PyroProcess.stop (p : PyroProcess) : PyroProcess :=
  { p with killed := some true }

/-- Process.add_neighbour. -/
def PyroProcess.add_neighbour (p : PyroProcess) (x : Nat) : PyroProcess :=
  { p with neighbours := p.neighbours ++ [x] }

/-!
Control-flow skeleton of run_hirschberg_sinclair_algorithm for the
resource-teardown claim.  Each call that can raise is an oracle value of
the environment; the function mirrors the order of the Python statements
around the try block of lines 182 to 245.
-/

/-- How the orchestrator call ends: returning the merged trace or
propagating an exception, identified by a numeric code. -/
inductive RunExit where
  | ok (trace : List TraceEntry)
  | raised (e : Nat)
deriving DecidableEq, Repr

/-- The observable outcome: the exit, plus whether daemon.shutdown() and
nameserverDaemon.shutdown() were called at least once on the way out. -/
structure RunOutcome where
  exit : RunExit
  daemonShutdown : Bool
  nameserverShutdown : Bool
deriving DecidableEq, Repr

/-- Oracles for the failure behaviour of the steps of
run_hirschberg_sinclair_algorithm: starting the name server (line 179),
creating the Pyro daemon (line 180), the body of the try block up to the
point just before the shutdown calls (lines 183 to 233), and the
dataframe post-processing after the shutdown calls (lines 236 to 240). -/
structure OrchestratorEnv where
  startNameServer : Except Nat Unit
  createDaemon : Except Nat Unit
  tryBody : Except Nat (List TraceEntry)
  finishUp : List TraceEntry → Except Nat (List TraceEntry)

/-- Lines 177 to 245: the name server and the daemon are created before
the try block, so a failure of the daemon constructor propagates without
any shutdown; inside the try block every exception reaches the except
clause, which shuts both daemons down and re-raises; the success path
shuts both daemons down before the final post-processing, whose failure
is caught by the same except clause (shutting down again, harmlessly). -/
def run_hirschberg_sinclair_algorithm (env : OrchestratorEnv) : RunOutcome :=
  match env.startNameServer with
  | .error e => { exit := .raised e, daemonShutdown := false, nameserverShutdown := false }
  | .ok _ =>
    match env.createDaemon with
    | .error e => { exit := .raised e, daemonShutdown := false, nameserverShutdown := false }
    | .ok _ =>
      match env.tryBody with
      | .error e => { exit := .raised e, daemonShutdown := true, nameserverShutdown := true }
      | .ok df =>
        match env.finishUp df with
        | .error e => { exit := .raised e, daemonShutdown := true, nameserverShutdown := true }
        | .ok out => { exit := .ok out, daemonShutdown := true, nameserverShutdown := true }

/-!
The input field of app/hirschberg/parametrization.py.
-/

/-- The constraints a VIKTOR NumberField declares. -/
structure NumberFieldSpec where
  default : Nat
  min : Nat
  max : Nat
  step : Nat
deriving DecidableEq, Repr

/-- Line 17: NumberField("Number of nodes", default=3, min=3, max=99,
step=2). -/
def number_of_nodes_field : NumberFieldSpec :=
  { default := 3, min := 3, max := 99, step := 2 }

/-- The values a NumberField offers: within the min and max bounds and on
the step grid anchored at min. -/
def NumberFieldSpec.accepts (f : NumberFieldSpec) (n : Nat) : Bool :=
  decide (f.min ≤ n) && decide (n ≤ f.max) && decide ((n - f.min) % f.step = 0)

/-!
Theorems.
-/

/-- C10: other_neighbour returns the first stored neighbour different
from the sender and otherwise the last stored neighbour: in particular,
with two stored neighbours it returns the other one when the sender is
one of two distinct neighbours, the first one when the sender is
neither, and the sender itself when both stored neighbours equal the
sender. -/
theorem other_neighbour_behaviour :
    (∀ (ns : List ρ) (s : ρ),
       other_neighbour ns s =
         (ns.find? (fun x => x != s)).orElse (fun _ => ns.getLast?)) ∧
    (∀ a b s : ρ, s = a → other_neighbour [a, b] s = some b) ∧
    (∀ a b s : ρ, s ≠ a → other_neighbour [a, b] s = some a) ∧
    (∀ s : ρ, other_neighbour [s, s] s = some s) := by
  refine ⟨?_, ?_, ?_, ?_⟩
  · intro ns s
    induction ns with
    | nil => rfl
    | cons x xs ih =>
      cases xs with
      | nil =>
        by_cases hx : x = s
        · simp [other_neighbour, List.find?, hx, Option.orElse, bne_self_eq_false]
        · have hb : (x != s) = true := bne_iff_ne.mpr hx
          simp [other_neighbour, List.find?, hb, Option.orElse]
      | cons y ys =>
        by_cases hx : x = s
        · simp only [other_neighbour, hx, ne_eq, not_true_eq_false, if_false, ih]
          simp [List.find?, Option.orElse]
        · have hb : (x != s) = true := bne_iff_ne.mpr hx
          simp [other_neighbour, hx, List.find?, hb, Option.orElse]
  · intro a b s h
    subst h
    simp [other_neighbour]
  · intro a b s h
    simp [other_neighbour, h, Ne.symm]
  · intro s
    simp [other_neighbour]

/-- Witness for C10 at concrete inputs. -/
theorem other_neighbour_behaviour_witness :
    other_neighbour [7, 9] (7 : Nat) = some 9 ∧
    other_neighbour [7, 9] (9 : Nat) = some 7 ∧
    other_neighbour [7, 9] (3 : Nat) = some 7 ∧
    other_neighbour [4, 4] (4 : Nat) = some 4 ∧
    other_neighbour [7, 9] (7 : Nat) =
      (([7, 9] : List Nat).find? (fun x => x != 7)).orElse
        (fun _ => ([7, 9] : List Nat).getLast?) :=
  ⟨other_neighbour_behaviour.2.1 7 9 7 rfl,
   other_neighbour_behaviour.2.2.1 7 9 9 (by decide),
   other_neighbour_behaviour.2.2.1 7 9 3 (by decide),
   other_neighbour_behaviour.2.2.2 4,
   other_neighbour_behaviour.1 [7, 9] 7⟩

/-- C2: receive_out always records a RECEIVE_OUT trace row; a candidate
id at most the own id is dropped without reply and without touching any
other field; a larger candidate id has the hop count decremented by the
current round l and is forwarded as a receive_out with the decremented
count to the neighbour other than the sender when the remainder is
positive, and answered with a receive_in carrying the candidate id back
to the sender otherwise. -/
theorem receive_out_behaviour (s : Hirschberg ρ) (nid : Nat) (h : Int) (sender : ρ) :
    (nid ≤ s.id →
      receive_out s nid h sender = some (add_data s NState.RECEIVE_OUT none, [])) ∧
    (s.id < nid → 0 < h - s.l → ∀ t, other_neighbour s.neighbours sender = some t →
      receive_out s nid h sender =
        some (add_data (add_data s NState.RECEIVE_OUT none) NState.SEND_OUT none,
              [(t, Msg.out nid (h - s.l) s.me)])) ∧
    (s.id < nid → h - s.l ≤ 0 →
      receive_out s nid h sender =
        some (add_data (add_data s NState.RECEIVE_OUT none) NState.SEND_IN none,
              [(sender, Msg.inn nid s.me)])) := by
  refine ⟨?_, ?_, ?_⟩
  · intro hle
    simp [receive_out, add_data, not_lt.mpr hle]
  · intro hgt hpos t ht
    simp [receive_out, add_data, send_out, hgt, hpos, ht]
  · intro hgt hnonpos
    simp [receive_out, add_data, send_in, hgt, not_lt.mpr hnonpos]

/-- Witness for C2: one concrete instance of each of the three cases. -/
theorem receive_out_behaviour_witness :
    (receive_out (⟨0, 0, 10, 1, 8, 0, false, [1, 2], []⟩ : Hirschberg Nat) 3 5 1 =
      some (add_data (⟨0, 0, 10, 1, 8, 0, false, [1, 2], []⟩ : Hirschberg Nat)
        NState.RECEIVE_OUT none, [])) ∧
    (receive_out (⟨0, 0, 10, 1, 8, 0, false, [1, 2], []⟩ : Hirschberg Nat) 20 5 1 =
      some (add_data (add_data (⟨0, 0, 10, 1, 8, 0, false, [1, 2], []⟩ : Hirschberg Nat)
        NState.RECEIVE_OUT none) NState.SEND_OUT none, [(2, Msg.out 20 4 0)])) ∧
    (receive_out (⟨0, 0, 10, 1, 8, 0, false, [1, 2], []⟩ : Hirschberg Nat) 20 1 1 =
      some (add_data (add_data (⟨0, 0, 10, 1, 8, 0, false, [1, 2], []⟩ : Hirschberg Nat)
        NState.RECEIVE_OUT none) NState.SEND_IN none, [(1, Msg.inn 20 0)])) :=
  ⟨(receive_out_behaviour _ 3 5 1).1 (by decide),
   (receive_out_behaviour _ 20 5 1).2.1 (by decide) (by decide) 2 (by decide),
   (receive_out_behaviour _ 20 1 1).2.2 (by decide) (by decide)⟩

/-- C7: receive_in on a foreign candidate id relays the id as a
receive_in to the neighbour other than the sender, appends exactly one
RECEIVE_IN and one SEND_IN trace row, and leaves round, counter and the
election flag unchanged. -/
theorem receive_in_relay_behaviour (s : Hirschberg ρ) (nid : Nat) (sender t : ρ)
    (hne : nid ≠ s.id) (ht : other_neighbour s.neighbours sender = some t) :
    receive_in s nid sender =
      some ({ s with data := s.data ++ [⟨s.name, s.id, s.l, none, NState.RECEIVE_IN⟩,
                                        ⟨s.name, s.id, s.l, none, NState.SEND_IN⟩] },
            [(t, Msg.inn nid s.me)]) := by
  cases s
  simp [receive_in, add_data, send_in, hne, ht]

/-- Witness for C7 at a concrete node and message. -/
theorem receive_in_relay_behaviour_witness :
    receive_in (⟨0, 0, 10, 1, 8, 0, false, [1, 2], []⟩ : Hirschberg Nat) 20 1 =
      some (⟨0, 0, 10, 1, 8, 0, false, [1, 2],
             [⟨0, 10, 1, none, NState.RECEIVE_IN⟩,
              ⟨0, 10, 1, none, NState.SEND_IN⟩]⟩,
            [(2, Msg.inn 20 0)]) :=
  receive_in_relay_behaviour _ 20 1 2 (by decide) (by decide)

/-- C3: receive_in on the own candidate id increments the counter; when
the counter reaches 2 and 2 ^ l + 1 reaches the node count, the node
sets its election flag, advances the round and records SELECTED without
sending anything; when the counter reaches 2 below the threshold it
advances the round, resets the counter and sends a receive_out with hop
budget 2 ^ (newRound - 1) to every stored neighbour; otherwise only the
counter changes. -/
theorem receive_in_match_behaviour (s : Hirschberg ρ) (sender : ρ) :
    (s.counter = 1 → s.number_of_nodes ≤ 2 ^ s.l + 1 →
      receive_in s s.id sender =
        some ({ s with
                counter := 2
                elected := true
                l := s.l + 1
                data := s.data ++ [⟨s.name, s.id, s.l, none, NState.RECEIVE_IN⟩,
                                   ⟨s.name, s.id, s.l + 1, none, NState.SELECTED⟩] },
              [])) ∧
    (s.counter = 1 → 2 ^ s.l + 1 < s.number_of_nodes →
      receive_in s s.id sender =
        some ({ s with
                counter := 0
                l := s.l + 1
                data := s.data ++ [⟨s.name, s.id, s.l, none, NState.RECEIVE_IN⟩,
                                   ⟨s.name, s.id, s.l + 1, none, NState.SEND_OUT⟩] },
              s.neighbours.map fun t => (t, Msg.out s.id ((2 : Int) ^ s.l) s.me))) ∧
    (s.counter + 1 ≠ 2 →
      receive_in s s.id sender =
        some ({ s with
                counter := s.counter + 1
                data := s.data ++ [⟨s.name, s.id, s.l, none, NState.RECEIVE_IN⟩] },
              [])) := by
  refine ⟨?_, ?_, ?_⟩
  · intro hc hthr
    cases s with
    | mk me name id l number_of_nodes counter elected neighbours data =>
      subst hc
      simp at hthr
      simp [receive_in, add_data, hthr]
  · intro hc hthr
    cases s with
    | mk me name id l number_of_nodes counter elected neighbours data =>
      subst hc
      simp [receive_in, add_data, send_out, not_le.mpr hthr]
  · intro hc
    cases s with
    | mk me name id l number_of_nodes counter elected neighbours data =>
      simp [receive_in, add_data, hc]

/-- Witness for C3: the three cases at concrete nodes.  Node count 3 with
l = 1 reaches the election threshold, node count 8 with l = 1 does
not. -/
theorem receive_in_match_behaviour_witness :
    (receive_in (⟨0, 0, 10, 1, 3, 1, false, [1, 2], []⟩ : Hirschberg Nat) 10 1 =
      some (⟨0, 0, 10, 2, 3, 2, true, [1, 2],
             [⟨0, 10, 1, none, NState.RECEIVE_IN⟩,
              ⟨0, 10, 2, none, NState.SELECTED⟩]⟩, [])) ∧
    (receive_in (⟨0, 0, 10, 1, 8, 1, false, [1, 2], []⟩ : Hirschberg Nat) 10 1 =
      some (⟨0, 0, 10, 2, 8, 0, false, [1, 2],
             [⟨0, 10, 1, none, NState.RECEIVE_IN⟩,
              ⟨0, 10, 2, none, NState.SEND_OUT⟩]⟩,
            [(1, Msg.out 10 2 0), (2, Msg.out 10 2 0)])) ∧
    (receive_in (⟨0, 0, 10, 1, 8, 0, false, [1, 2], []⟩ : Hirschberg Nat) 10 1 =
      some (⟨0, 0, 10, 1, 8, 1, false, [1, 2],
             [⟨0, 10, 1, none, NState.RECEIVE_IN⟩]⟩, [])) :=
  ⟨((receive_in_match_behaviour _ 1).1 rfl (by decide)).trans (by decide),
   ((receive_in_match_behaviour _ 1).2.1 rfl (by decide)).trans (by decide),
   ((receive_in_match_behaviour _ 1).2.2 (by decide)).trans (by decide)⟩

/-!
Round monotonicity (claim C8).  A node step is one completed handler
invocation; the lifetime of a node is run followed by any sequence of
handler invocations.
-/

/-- One completed handler invocation on a single node: a receive_out or
receive_in call with arbitrary arguments that returns normally. -/
inductive NodeStep : Hirschberg ρ → Hirschberg ρ → Prop where
  | rout (nid : Nat) (h : Int) (sender : ρ) (s s2 : Hirschberg ρ)
      (sends : List (ρ × Msg ρ)) :
      receive_out s nid h sender = some (s2, sends) → NodeStep s s2
  | rin (nid : Nat) (sender : ρ) (s s2 : Hirschberg ρ)
      (sends : List (ρ × Msg ρ)) :
      receive_in s nid sender = some (s2, sends) → NodeStep s s2

/-- The per-node trace invariant behind claim C8: recorded rounds are
monotone and never exceed the current round. -/
def RoundInv (s : Hirschberg ρ) : Prop :=
  List.Chain' (· ≤ ·) (s.data.map (·.round)) ∧ ∀ e ∈ s.data, e.round ≤ s.l

omit [DecidableEq ρ] in
lemma roundInv_add_data {s : Hirschberg ρ} (hs : RoundInv s)
    (st : NState) (c : Option Nat) : RoundInv (add_data s st c) := by
  obtain ⟨h1, h2⟩ := hs
  constructor
  · simp only [add_data, List.map_append]
    rw [List.chain'_append]
    refine ⟨h1, by simp, ?_⟩
    intro x hx y hy
    simp at hy
    subst hy
    obtain ⟨hne, hx2⟩ := List.mem_getLast?_eq_getLast hx
    have hmem : x ∈ s.data.map (·.round) := hx2 ▸ List.getLast_mem hne
    obtain ⟨e, he, hex⟩ := List.mem_map.mp hmem
    exact hex ▸ h2 e he
  · intro e he
    have hl : (add_data s st c).l = s.l := rfl
    rw [hl]
    simp [add_data] at he
    rcases he with he | he
    · exact h2 e he
    · simp [he]

omit [DecidableEq ρ] in
lemma roundInv_bump {s : Hirschberg ρ} (hs : RoundInv s) :
    ∀ l2, s.l ≤ l2 → ∀ c el, RoundInv
      { me := s.me, name := s.name, id := s.id, l := l2,
        number_of_nodes := s.number_of_nodes, counter := c, elected := el,
        neighbours := s.neighbours, data := s.data } := by
  intro l2 hl c el
  exact ⟨hs.1, fun e he => le_trans (hs.2 e he) hl⟩

lemma nodeStep_l_le {s s2 : Hirschberg ρ} (h : NodeStep s s2) :
    s2.l = s.l ∨ s2.l = s.l + 1 := by
  cases h with
  | rout nid hh sender s s2 sends heq =>
    left
    simp only [receive_out] at heq
    split at heq
    · split at heq
      · split at heq
        · cases heq
          rfl
        · cases heq
      · cases heq
        rfl
    · cases heq
      rfl
  | rin nid sender s s2 sends heq =>
    simp only [receive_in] at heq
    split at heq
    · split at heq
      · split at heq
        · cases heq
          right
          rfl
        · cases heq
          right
          rfl
      · cases heq
        left
        rfl
    · split at heq
      · cases heq
        left
        rfl
      · cases heq

lemma nodeStep_roundInv {s s2 : Hirschberg ρ} (h : NodeStep s s2)
    (hs : RoundInv s) : RoundInv s2 := by
  cases h with
  | rout nid hh sender s s2 sends heq =>
    have h0 : RoundInv (add_data s NState.RECEIVE_OUT none) :=
      roundInv_add_data hs _ _
    simp only [receive_out] at heq
    split at heq
    · split at heq
      · split at heq
        · cases heq
          exact roundInv_add_data h0 _ _
        · cases heq
      · cases heq
        exact roundInv_add_data h0 _ _
    · cases heq
      exact h0
  | rin nid sender s s2 sends heq =>
    have h0 : RoundInv (add_data s NState.RECEIVE_IN none) :=
      roundInv_add_data hs _ _
    have h1 : RoundInv
        { me := s.me, name := s.name, id := s.id, l := s.l,
          number_of_nodes := s.number_of_nodes, counter := s.counter + 1,
          elected := s.elected, neighbours := s.neighbours,
          data := (add_data s NState.RECEIVE_IN none).data } := by
      have := roundInv_bump h0 s.l le_rfl (s.counter + 1) s.elected
      simpa [add_data] using this
    simp only [receive_in] at heq
    split at heq
    · split at heq
      · split at heq
        · cases heq
          refine roundInv_add_data ?_ _ _
          have := roundInv_bump h1 (s.l + 1) (Nat.le_succ _) (s.counter + 1) true
          simpa [add_data] using this
        · cases heq
          refine roundInv_add_data ?_ _ _
          have := roundInv_bump h1 (s.l + 1) (Nat.le_succ _) 0 s.elected
          simpa [add_data] using this
      · cases heq
        exact h1
    · split at heq
      · cases heq
        exact roundInv_add_data h0 _ _
      · cases heq

omit [DecidableEq ρ] in
lemma roundInv_after_run (me : ρ) (name id n : Nat) :
    RoundInv ((Hirschberg.init me name id n).run).1 := by
  constructor
  · simp [Hirschberg.run, Hirschberg.init, add_data, send_out]
  · intro e he
    simp [Hirschberg.run, Hirschberg.init, add_data, send_out] at he
    rcases he with he | he <;>
      simp [he, Hirschberg.run, Hirschberg.init, add_data, send_out]

/-- C8: the round starts at 0, run sets it to 1, every completed handler
invocation leaves it unchanged or adds one, and along any sequence of
handler invocations after run the rounds recorded in the node trace form
a monotonically non-decreasing sequence. -/
theorem round_monotone :
    (∀ (me : ρ) (name id n : Nat), (Hirschberg.init me name id n).l = 0) ∧
    (∀ (me : ρ) (name id n : Nat),
      ((Hirschberg.init me name id n).run).1.l = 1) ∧
    (∀ s s2 : Hirschberg ρ, NodeStep s s2 → s2.l = s.l ∨ s2.l = s.l + 1) ∧
    (∀ (me : ρ) (name id n : Nat) (s2 : Hirschberg ρ),
      Relation.ReflTransGen NodeStep ((Hirschberg.init me name id n).run).1 s2 →
      List.Chain' (· ≤ ·) (s2.data.map (·.round))) := by
  refine ⟨fun _ _ _ _ => rfl, fun _ _ _ _ => rfl,
    fun s s2 h => nodeStep_l_le h, ?_⟩
  intro me name id n s2 hreach
  suffices h : RoundInv s2 from h.1
  induction hreach with
  | refl => exact roundInv_after_run me name id n
  | tail _ hstep ih => exact nodeStep_roundInv hstep ih

/-- Witness for C8: a concrete handler invocation keeps the round, and
the trace of a freshly started node is round-monotone. -/
theorem round_monotone_witness :
    ((⟨0, 0, 5, 1, 3, 0, false, [1, 2],
       [⟨0, 5, 1, none, NState.RECEIVE_OUT⟩,
        ⟨0, 5, 1, none, NState.SEND_IN⟩]⟩ : Hirschberg Nat).l =
      (⟨0, 0, 5, 1, 3, 0, false, [1, 2], []⟩ : Hirschberg Nat).l ∨
     (⟨0, 0, 5, 1, 3, 0, false, [1, 2],
       [⟨0, 5, 1, none, NState.RECEIVE_OUT⟩,
        ⟨0, 5, 1, none, NState.SEND_IN⟩]⟩ : Hirschberg Nat).l =
      (⟨0, 0, 5, 1, 3, 0, false, [1, 2], []⟩ : Hirschberg Nat).l + 1) ∧
    List.Chain' (· ≤ ·)
      ((((Hirschberg.init (ρ := Nat) 0 0 5 3).run).1).data.map (·.round)) :=
  ⟨round_monotone.2.2.1 _ _
    (NodeStep.rout 9 1 1 _ _ [(1, Msg.inn 9 0)] (by decide)),
   round_monotone.2.2.2 0 0 5 3 _ Relation.ReflTransGen.refl⟩

/-- C1 fails on the code: in the adversarial ring of eight nodes, after
the FIFO-respecting schedule splitSchedule, both node 0 (id 100, the
maximum) and node 4 (id 90, not the maximum) hold elected = true, so a
run with n at least 3 and pairwise-distinct ids can elect two nodes, one
of which does not hold the maximum id. -/
theorem split_election_two_leaders :
    ((execSchedule (ringNetwork splitIds) splitSchedule).map
      fun net => net.nodes.map fun s => (s.id, s.elected)) =
    some [(100, true), (11, false), (50, false), (10, false),
          (90, true), (12, false), (60, false), (13, false)] := by
  decide

/-- C4 fails on the code: the topology construction of
run_hirschberg_sinclair_algorithm runs no validation.  With a random
source that returns the same raw draw three times, three equal ids are
produced and silently kept, and a two-node ring is built without any
error, so no InvalidTopology check exists for n below 3 or for
duplicated ids. -/
theorem run_setup_counterexample :
    run_setup 3 (fun _ => 0) = some ([1, 1, 1], [[2, 1], [0, 2], [1, 0]]) ∧
    run_setup 2 (fun _ => 0) = some ([1, 1], [[1, 1], [0, 0]]) := by
  decide

lemma mapM_option_eq_map {α β : Type} (f : α → Option β) (g : α → β) :
    ∀ xs : List α, (∀ x ∈ xs, f x = some (g x)) →
      xs.mapM f = some (xs.map g) := by
  intro xs
  induction xs with
  | nil => intro _; rfl
  | cons x xs ih =>
    intro hall
    rw [List.mapM_cons, hall x (by simp), ih fun y hy => hall y (by simp [hy])]
    rfl

lemma ring_neighbours_mod (n idx : Nat) (hidx : idx < n) :
    ring_neighbours n idx = [(idx + (n - 1)) % n, (idx + 1) % n] := by
  have hn : 0 < n := by omega
  have hright : (if idx = 0 then n - 1 else idx - 1) = (idx + (n - 1)) % n := by
    by_cases h0 : idx = 0
    · subst h0
      rw [if_pos rfl, Nat.zero_add, Nat.mod_eq_of_lt (by omega)]
    · have hsum : idx + (n - 1) = n + (idx - 1) := by omega
      rw [if_neg h0, hsum, Nat.add_mod_left, Nat.mod_eq_of_lt (by omega)]
  have hleft : (if n ≤ idx + 1 then 0 else idx + 1) = (idx + 1) % n := by
    by_cases h1 : n ≤ idx + 1
    · have he : idx + 1 = n := by omega
      rw [if_pos h1, he, Nat.mod_self]
    · rw [if_neg h1, Nat.mod_eq_of_lt (by omega)]
  simp only [ring_neighbours, hright, hleft]

/-- C4 amended: for every node count n at least 2 and every random
source the construction succeeds, the ids are exactly the n raw draws
mapped into the interval of np.random.randint(1, n ^ 4) with no
distinctness filtering, and node idx is wired to its two ring
neighbours; no node-count validation and no InvalidTopology error
exist (for n = 1 the only failure is the ValueError of
np.random.randint on an empty interval). -/
theorem run_setup_no_validation (n : Nat) (sample : Nat → Nat) (hn : 2 ≤ n) :
    run_setup n sample =
      some ((List.range n).map fun i => 1 + sample i % (n ^ 4 - 1),
            (List.range n).map fun idx => [(idx + (n - 1)) % n, (idx + 1) % n]) := by
  have hpow : 1 < n ^ 4 := by
    calc 1 < 2 ^ 4 := by norm_num
    _ ≤ n ^ 4 := Nat.pow_le_pow_left hn 4
  have hids : generate_ids n sample =
      some ((List.range n).map fun i => 1 + sample i % (n ^ 4 - 1)) := by
    unfold generate_ids
    exact mapM_option_eq_map _ _ _ fun i _ => by
      simp [np_randint, hpow]
  have hw : (List.range n).map (ring_neighbours n) =
      (List.range n).map fun idx => [(idx + (n - 1)) % n, (idx + 1) % n] :=
    List.map_congr_left fun idx hidx =>
      ring_neighbours_mod n idx (List.mem_range.mp hidx)
  unfold run_setup
  rw [hids, Option.map_some', hw]

/-- Witness for C4 amended at n = 3. -/
theorem run_setup_no_validation_witness :
    run_setup 3 (fun i => i) = some ([1, 2, 3], [[2, 1], [0, 2], [1, 0]]) :=
  (run_setup_no_validation 3 (fun i => i) (by decide)).trans (by decide)

/-- C5 fails on the code: Process.start has no lifecycle guard, so a
second start call is silently accepted, resets the kill flag and starts
a second thread running the run method; no AlreadyStarted error exists
in the repository. -/
theorem start_twice_counterexample :
    (PyroProcess.init 4).start.start =
      { name := 4, neighbours := [], killed := some false,
        threadsStarted := 2 } := rfl

/-- C5 amended: calling start twice on any process state is accepted
without error, leaves name and neighbours untouched, resets the kill
flag and accumulates two started threads. -/
theorem start_twice_silent (p : PyroProcess) :
    p.start.start.threadsStarted = p.threadsStarted + 2 ∧
    p.start.start.killed = some false ∧
    p.start.start.name = p.name ∧
    p.start.start.neighbours = p.neighbours :=
  ⟨rfl, rfl, rfl, rfl⟩

/-- C6 fails on the code: the name server daemon is started before the
try block, so when creating the Pyro daemon raises, the exception
propagates without any shutdown call, leaving the already-running name
server daemon up. -/
theorem teardown_counterexample :
    run_hirschberg_sinclair_algorithm
      { startNameServer := .ok (), createDaemon := .error 7,
        tryBody := .ok [], finishUp := fun df => .ok df } =
      { exit := .raised 7, daemonShutdown := false,
        nameserverShutdown := false } := rfl

/-- C6 amended: once the name server and the Pyro daemon have both been
created (the run enters the try block), both shutdown calls happen on
every exit, returning or raising. -/
theorem teardown_after_try (env : OrchestratorEnv)
    (h1 : env.startNameServer = .ok ())
    (h2 : env.createDaemon = .ok ()) :
    (run_hirschberg_sinclair_algorithm env).daemonShutdown = true ∧
    (run_hirschberg_sinclair_algorithm env).nameserverShutdown = true := by
  unfold run_hirschberg_sinclair_algorithm
  rw [h1, h2]
  cases h3 : env.tryBody with
  | error e => exact ⟨rfl, rfl⟩
  | ok df =>
    dsimp only
    cases h4 : env.finishUp df with
    | error e => exact ⟨rfl, rfl⟩
    | ok out => exact ⟨rfl, rfl⟩

/-- Witness for C6 amended: a run whose try body raises still shuts both
daemons down. -/
theorem teardown_after_try_witness :
    (run_hirschberg_sinclair_algorithm
      { startNameServer := .ok (), createDaemon := .ok (),
        tryBody := .error 3, finishUp := fun df => .ok df }).daemonShutdown = true ∧
    (run_hirschberg_sinclair_algorithm
      { startNameServer := .ok (), createDaemon := .ok (),
        tryBody := .error 3, finishUp := fun df => .ok df }).nameserverShutdown = true :=
  teardown_after_try _ rfl rfl

/-- C9 fails on the code: the number-of-nodes field is declared with
min 3, max 99 and step 2, so the even ring size 4, although between the
bounds, is not on the step grid the field offers. -/
theorem number_field_rejects_even :
    number_of_nodes_field.accepts 4 = false ∧
    number_of_nodes_field.min ≤ 4 ∧ 4 ≤ number_of_nodes_field.max := by
  decide

/-- C9 amended: the field accepts exactly the odd integers from 3 to
99. -/
theorem number_field_accepts_odd (n : Nat) :
    number_of_nodes_field.accepts n = true ↔
      3 ≤ n ∧ n ≤ 99 ∧ n % 2 = 1 := by
  simp only [NumberFieldSpec.accepts, number_of_nodes_field,
    Bool.and_eq_true, decide_eq_true_eq]
  omega

end DistAlg
